import Mathlib

/-!
Verification of the web3-time-capsule core against its specification.

The development shallowly embeds the three core subsystems:
* the crypto layer (src/unnamed/part_001, a Web Crypto AES-GCM wrapper),
* the content store (src/Frontend/src/lib/ipfs.ts, mirror download loop),
* the reveal coordinator (src/Frontend/src/lib/reveal.ts).

External collaborators (the capsule directory, the network, the platform
crypto primitive, the clock) are passed in explicitly; the persisted
reveal ledger (localStorage key revealed_capsules) is threaded as state.
-/

namespace TimeCapsule

/-! ## Bytes and basic helpers -/

/-- Bytes are modelled as lists of naturals (each intended < 256). -/
abbrev Bytes := List Nat

/-- Substring test on character lists: does the pattern occur inside the text?
Mirrors the JavaScript String.prototype.includes used by the source. -/
def subLC (p : List Char) : List Char → Bool
  | [] => decide (p = [])
  | c :: cs => p.isPrefixOf (c :: cs) || subLC p cs

/-- String containment, modelling the JavaScript includes test. -/
def strContains (s pat : String) : Bool := subLC pat.toList s.toList

/-- Prefix test, modelling the JavaScript startsWith test. -/
def strStartsWith (s pre : String) : Bool := pre.toList.isPrefixOf s.toList

/-- Lowercasing, modelling the JavaScript toLowerCase call. -/
def strToLower (s : String) : String := String.mk (s.data.map Char.toLower)

/-- Is the CID rejected by the emptiness guard at ipfs.ts line 149
(empty or whitespace only, modelling cid.trim comparing equal to the
empty string)? -/
def isBlankCid (cid : String) : Bool := cid.data.all Char.isWhitespace

/-- Does the string match the regex of only digits used at reveal.ts:59
(at least one character, every character a decimal digit)? -/
def isAllDigits (s : String) : Bool :=
  decide (s ≠ "") && s.toList.all Char.isDigit

/-! ## Base64 (atob model, used by base64ToArrayBuffer in part_001) -/

/-- Value of a single standard-alphabet base64 character. -/
def b64Val (c : Char) : Option Nat :=
  if 'A' ≤ c ∧ c ≤ 'Z' then some (c.toNat - 65)
  else if 'a' ≤ c ∧ c ≤ 'z' then some (c.toNat - 97 + 26)
  else if '0' ≤ c ∧ c ≤ '9' then some (c.toNat - 48 + 52)
  else if c = '+' then some 62
  else if c = '/' then some 63
  else none

/-- Decode base64 text in chunks of four characters, honouring the one- and
two-byte padded final chunks; any malformed input decodes to none, modelling
the exception thrown by atob. -/
def b64DecodeChunks : List Char → Option Bytes
  | [] => some []
  | c1 :: c2 :: c3 :: c4 :: rest =>
    match b64Val c1, b64Val c2 with
    | some v1, some v2 =>
      if c3 = '=' then
        if c4 = '=' ∧ rest = [] then some [v1 * 4 + v2 / 16] else none
      else
        match b64Val c3 with
        | some v3 =>
          if c4 = '=' then
            if rest = [] then some [v1 * 4 + v2 / 16, (v2 % 16) * 16 + v3 / 4]
            else none
          else
            match b64Val c4 with
            | some v4 =>
              (b64DecodeChunks rest).map
                (fun bs => (v1 * 4 + v2 / 16) :: ((v2 % 16) * 16 + v3 / 4) ::
                  ((v3 % 4) * 64 + v4) :: bs)
            | none => none
        | none => none
    | _, _ => none
  | _ => none

/-- base64ToArrayBuffer from part_001: atob followed by a byte extraction;
none models the exception on malformed base64. -/
def base64ToArrayBuffer (s : String) : Option Bytes := b64DecodeChunks s.toList

/-! ## CryptoEngine (part_001)

The AES-GCM primitive itself lives in the browser platform
(crypto.subtle), not in the repository.  Following the spec, GCM is an
authenticated stream cipher: ciphertext is the plaintext XORed with a
key/IV-derived keystream and a 16-byte tag is attached; decryption
recomputes and checks the tag and inverts the XOR. -/

/-- Modelled from the spec: the keystream byte at position i produced by the
platform AES-GCM primitive for a given key and IV (the concrete mixing
stands in for the AES block cipher, which is not repository code). -/
def ksByte (key iv : Bytes) (i : Nat) : Nat :=
  (key.foldl (fun a b => a * 31 + b) 7 +
    (iv.foldl (fun a b => a * 131 + b) 13) * (i + 1) + i * i) % 256

/-- XOR a byte sequence with the keystream, starting at offset i. -/
def xorStream (key iv : Bytes) : Nat → Bytes → Bytes
  | _, [] => []
  | i, b :: bs => (b ^^^ ksByte key iv i) :: xorStream key iv (i + 1) bs

/-- Modelled from the spec: the 128-bit GCM authentication tag over the
ciphertext for a given key and IV. -/
def gcmTag (key iv ct : Bytes) : Bytes :=
  (List.range 16).map (fun j =>
    (ct.foldl (fun a b => (a * 257 + b) % 65536) (j + 1) +
      key.foldl (fun a b => a + b) 0 + iv.foldl (fun a b => a + b) j) % 256)

/-- Modelled from the spec: crypto.subtle.encrypt with AES-GCM —
ciphertext followed by the 16-byte authentication tag. -/
def subtleEncrypt (key iv pt : Bytes) : Bytes :=
  let ct := xorStream key iv 0 pt
  ct ++ gcmTag key iv ct

/-- Modelled from the spec: crypto.subtle.decrypt with AES-GCM — split off
the 16-byte tag, check it, and invert the keystream XOR; none models the
AuthenticationFailure exception. -/
def subtleDecrypt (key iv data : Bytes) : Option Bytes :=
  if data.length < 16 then none
  else
    let n := data.length - 16
    let ct := data.take n
    let tag := data.drop n
    if tag = gcmTag key iv ct then some (xorStream key iv 0 ct) else none

/-- Model of the platform TextEncoder used at part_001 line 37: a string as
the sequence of its character code points. -/
def textEncode (s : String) : Bytes := s.data.map Char.toNat

/-- Model of the platform TextDecoder used at part_001 line 79. -/
def textDecode (b : Bytes) : String := String.mk (b.map Char.ofNat)

/-- EncryptedData from part_001: ciphertext plus the IV and raw key. -/
structure EncryptedData where
  encryptedContent : Bytes
  iv : Bytes
  key : Bytes
deriving Repr, DecidableEq

/-- encrypt from part_001 lines 34-55.  Key generation and the fresh random
IV are platform effects, so the chosen key and IV are explicit arguments;
the body encodes the text and applies the AES-GCM primitive, returning the
envelope carrying the ciphertext, the IV and the exported raw key. -/
def encrypt (data : String) (key iv : Bytes) : EncryptedData :=
  { encryptedContent := subtleEncrypt key iv (textEncode data)
    iv := iv
    key := key }

/-- decrypt from part_001 lines 58-80: import the raw key, apply the
AES-GCM primitive, and decode the plaintext; none models the rejected
promise on authentication failure. -/
def decrypt (encryptedData key iv : Bytes) : Option String :=
  (subtleDecrypt key iv encryptedData).map textDecode

/-! ## RecoveryKit and its structural validation -/

/-- RecoveryKit from part_001: base64 key and IV bound to one capsule id. -/
structure RecoveryKit where
  key : String
  iv : String
  capsuleId : String
deriving Repr, DecidableEq

/-- Result shape of the structural kit validation. -/
structure ValidationResult where
  isValid : Bool
  error : Option String
deriving Repr, DecidableEq

/-- Modelled from the spec: validateRecoveryKit is called from reveal.ts
but its implementation (the frontend crypto service method) is not among
the provided sources.  Spec 4.1: a pure structural check — fields present,
base64-decodable, decoded key exactly 32 bytes, decoded IV exactly 12
bytes (a missing field is modelled as the empty string). -/
def validateRecoveryKit (kit : RecoveryKit) : ValidationResult :=
  if kit.key = "" ∨ kit.iv = "" ∨ kit.capsuleId = "" then
    ⟨false, some "Missing required fields in recovery kit"⟩
  else
    match base64ToArrayBuffer kit.key with
    | none => ⟨false, some "Recovery kit key is not valid base64"⟩
    | some kb =>
      if kb.length ≠ 32 then ⟨false, some "Decoded key must be exactly 32 bytes"⟩
      else
        match base64ToArrayBuffer kit.iv with
        | none => ⟨false, some "Recovery kit IV is not valid base64"⟩
        | some ib =>
          if ib.length ≠ 12 then ⟨false, some "Decoded IV must be exactly 12 bytes"⟩
          else ⟨true, none⟩

/-! ## Crypto lemmas -/

theorem xorStream_xorStream (key iv : Bytes) (l : Bytes) :
    ∀ i, xorStream key iv i (xorStream key iv i l) = l := by
  induction l with
  | nil => intro i; rfl
  | cons b bs ih =>
    intro i
    simp only [xorStream, ih (i + 1), List.cons.injEq, and_true]
    rw [Nat.xor_assoc, Nat.xor_self, Nat.xor_zero]

theorem xorStream_length (key iv : Bytes) :
    ∀ i l, (xorStream key iv i l).length = l.length := by
  intro i l
  induction l generalizing i with
  | nil => rfl
  | cons b bs ih => simp [xorStream, ih]

theorem subtleDecrypt_subtleEncrypt (key iv pt : Bytes) :
    subtleDecrypt key iv (subtleEncrypt key iv pt) = some pt := by
  unfold subtleEncrypt subtleDecrypt
  have hlen : (xorStream key iv 0 pt ++ gcmTag key iv (xorStream key iv 0 pt)).length
      = (xorStream key iv 0 pt).length + 16 := by
    simp [gcmTag]
  rw [hlen]
  simp only [Nat.add_sub_cancel]
  rw [List.take_left, List.drop_left]
  simp [xorStream_xorStream]

theorem textDecode_textEncode (s : String) : textDecode (textEncode s) = s := by
  unfold textDecode textEncode
  rw [List.map_map]
  have : (Char.ofNat ∘ Char.toNat) = id := by
    funext c
    simp [Function.comp, Char.ofNat_toNat]
  rw [this, List.map_id]

/-- C4: For all plaintext strings p and keys k, decrypting the ciphertext
produced by encrypt(p, k) with the same key and the IV from the produced
envelope yields exactly p. -/
theorem decrypt_encrypt_roundtrip (p : String) (key iv : Bytes) :
    decrypt (encrypt p key iv).encryptedContent key (encrypt p key iv).iv = some p := by
  unfold decrypt encrypt
  simp [subtleDecrypt_subtleEncrypt, textDecode_textEncode]

/-- C5: validateRecoveryKit accepts a kit exactly when all fields are
present, both the key and the IV decode from base64, the decoded key is
exactly 32 bytes and the decoded IV is exactly 12 bytes; every other kit
is rejected. -/
theorem validateRecoveryKit_structural_iff (kit : RecoveryKit) :
    (validateRecoveryKit kit).isValid = true ↔
      kit.key ≠ "" ∧ kit.iv ≠ "" ∧ kit.capsuleId ≠ "" ∧
      (∃ kb, base64ToArrayBuffer kit.key = some kb ∧ kb.length = 32) ∧
      (∃ ib, base64ToArrayBuffer kit.iv = some ib ∧ ib.length = 12) := by
  unfold validateRecoveryKit
  split
  · next h =>
    simp only [ValidationResult.isValid]
    constructor
    · intro hc; cases hc
    · rintro ⟨h1, h2, h3, -⟩
      rcases h with h | h | h <;> simp_all
  · next h =>
    push_neg at h
    obtain ⟨hk, hi, hc⟩ := h
    constructor
    · intro hv
      refine ⟨hk, hi, hc, ?_⟩
      revert hv
      split
      · intro hv; cases hv
      · next kb hkb =>
        split
        · intro hv; cases hv
        · next hklen =>
          split
          · intro hv; cases hv
          · next ib hib =>
            split
            · intro hv; cases hv
            · next hilen =>
              intro _
              push_neg at hklen hilen
              exact ⟨⟨kb, hkb, hklen⟩, ⟨ib, hib, hilen⟩⟩
    · rintro ⟨-, -, -, ⟨kb, hkb, hklen⟩, ⟨ib, hib, hilen⟩⟩
      rw [hkb]
      simp only [hklen]
      rw [if_neg (by simp)]
      rw [hib]
      simp only [hilen]
      rw [if_neg (by simp)]

/-! ## Reveal data model (reveal.ts lines 5-30) -/

/-- One entry of a revealed capsule's file list. -/
structure CapsuleFileEntry where
  name : String
  key : String
  iv : String
  encryptedData : String
deriving Repr, DecidableEq

/-- DecryptedCapsuleContent: the payload recovered by decryption. -/
structure DecryptedCapsuleContent where
  title : String
  description : String
  files : List CapsuleFileEntry
  createdAt : Nat
  creator : String
deriving Repr, DecidableEq

/-- One comment on a revealed capsule. -/
structure Comment where
  id : String
  author : String
  content : String
  timestamp : Nat
deriving Repr, DecidableEq

/-- Social interaction counters on a revealed capsule. -/
structure SocialInteractions where
  likes : Nat
  comments : List Comment
deriving Repr, DecidableEq

/-- revealMetadata of a RevealedCapsule (reveal.ts lines 8-23). -/
structure RevealMetadata where
  revealedAt : Nat
  revealedBy : String
  isEarlyReveal : Bool
  originalUnlockTime : Nat
  revealMessage : Option String
  socialInteractions : SocialInteractions
deriving Repr, DecidableEq

/-- RevealedCapsule (reveal.ts lines 5-24). -/
structure RevealedCapsule where
  id : String
  originalData : DecryptedCapsuleContent
  revealMetadata : RevealMetadata
deriving Repr, DecidableEq

/-- RevealResult (reveal.ts lines 26-30). -/
structure RevealResult where
  success : Bool
  data : Option RevealedCapsule
  error : Option String
deriving Repr, DecidableEq

/-- The persisted reveal ledger: the parsed value of the localStorage key
revealed_capsules, a flat list of RevealedCapsule records. -/
structure Store where
  revealed : List RevealedCapsule
deriving Repr, DecidableEq

/-- External collaborators of the reveal coordinator, passed explicitly:
the capsule directory (getCapsuleIPFSHash reads the stored capsule list),
the content store (ipfsService.download, returning content or the thrown
error message), the crypto service decryption (decryptCapsuleContent is
not among the provided sources; per spec 4.1 it decodes the kit's key and
IV fields and delegates to decrypt, so it is passed as a function of the
ciphertext and those two fields, returning the payload or the thrown
error message), and the clock (Date.now in milliseconds). -/
structure RevealEnv where
  directory : String → Option String
  download : String → Except String String
  decryptContent : String → String → String → Except String DecryptedCapsuleContent
  now : Nat

/-! ## Reveal coordinator operations (reveal.ts) -/

/-- getRevealedCapsule (reveal.ts lines 248-251): first ledger record with
the given id, if any. -/
def getRevealedCapsule (revealed : List RevealedCapsule) (capsuleId : String) :
    Option RevealedCapsule :=
  revealed.find? (fun c => c.id = capsuleId)

/-- storeRevealedCapsule (reveal.ts lines 296-306): drop any record with
the same id, then append the new record. -/
def storeRevealedCapsule (revealed : List RevealedCapsule) (capsule : RevealedCapsule) :
    List RevealedCapsule :=
  revealed.filter (fun c => c.id ≠ capsule.id) ++ [capsule]

/-- isUserAuthorized (reveal.ts lines 335-344): the caller is authorized
exactly when the payload's creator equals the caller address after
lowercasing both. -/
def isUserAuthorized (capsuleData : DecryptedCapsuleContent) (userAddress : String) : Bool :=
  strToLower capsuleData.creator == strToLower userAddress

/-- The synthetic payload substituted on the mock path
(reveal.ts lines 97-103). -/
def mockDecryptedContent (now : Nat) (userAddress : String) : DecryptedCapsuleContent :=
  { title := "Test Time Capsule"
    description := "This is a test capsule for early reveal functionality"
    files := []
    createdAt := now
    creator := userAddress }

/-- The RevealedCapsule written on the mock path
(reveal.ts lines 109-123): synthetic payload, reveal metadata stamped with
the clock and the caller, and the reveal message defaulted to the empty
string. -/
def mockRevealedCapsule (now : Nat) (userAddress : String) (originalUnlockTime : Nat)
    (revealMessage : Option String) (capsuleId : String) : RevealedCapsule :=
  { id := capsuleId
    originalData := mockDecryptedContent now userAddress
    revealMetadata :=
      { revealedAt := now
        revealedBy := userAddress
        isEarlyReveal := decide (now < originalUnlockTime * 1000)
        originalUnlockTime := originalUnlockTime
        revealMessage := some (revealMessage.getD "")
        socialInteractions := { likes := 0, comments := [] } } }

/-- revealCapsule (reveal.ts lines 37-193), threading the reveal ledger as
explicit state.  Follows the source order: kit validation, kit/capsule id
binding with the all-digits bypass, duplicate-ledger check, directory
lookup, the mock-locator branch, download, decryption, authorization, and
the final ledger write.  Thrown download and decryption errors surface as
failure results, matching the try/catch structure of the source. -/
def revealCapsule (env : RevealEnv) (store : Store) (capsuleId : String)
    (recoveryKit : RecoveryKit) (userAddress : String) (originalUnlockTime : Nat)
    (revealMessage : Option String) : RevealResult × Store :=
  if (validateRecoveryKit recoveryKit).isValid = false then
    (⟨false, none, some ("Invalid recovery kit: " ++
      ((validateRecoveryKit recoveryKit).error.getD ""))⟩, store)
  else if recoveryKit.capsuleId ≠ capsuleId ∧ isAllDigits capsuleId = false then
    (⟨false, none, some "Recovery kit does not match the specified capsule"⟩, store)
  else
    match getRevealedCapsule store.revealed capsuleId with
    | some _ => (⟨false, none, some "This capsule has already been revealed"⟩, store)
    | none =>
      match env.directory capsuleId with
      | none => (⟨false, none, some "Could not find IPFS content for this capsule"⟩, store)
      | some ipfsCid =>
        if strStartsWith ipfsCid "mock_" then
          let revealedCapsule : RevealedCapsule :=
            mockRevealedCapsule env.now userAddress originalUnlockTime revealMessage capsuleId
          (⟨true, some revealedCapsule, none⟩,
            ⟨storeRevealedCapsule store.revealed revealedCapsule⟩)
        else
          match env.download ipfsCid with
          | Except.error e =>
            (⟨false, none, some ("Failed to download content from IPFS: " ++ e)⟩, store)
          | Except.ok encryptedContent =>
            match env.decryptContent encryptedContent recoveryKit.key recoveryKit.iv with
            | Except.error e => (⟨false, none, some e⟩, store)
            | Except.ok decryptedData =>
              if isUserAuthorized decryptedData userAddress = false then
                (⟨false, none, some "You are not authorized to reveal this capsule"⟩, store)
              else
                let revealedCapsule : RevealedCapsule :=
                  { id := capsuleId
                    originalData := decryptedData
                    revealMetadata :=
                      { revealedAt := env.now
                        revealedBy := userAddress
                        isEarlyReveal := decide (env.now < originalUnlockTime * 1000)
                        originalUnlockTime := originalUnlockTime
                        revealMessage := revealMessage
                        socialInteractions := { likes := 0, comments := [] } } }
                (⟨true, some revealedCapsule, none⟩,
                  ⟨storeRevealedCapsule store.revealed revealedCapsule⟩)

/-- previewCapsule (reveal.ts lines 347-451), threading the reveal ledger
as explicit state.  The source performs kit validation, directory lookup,
the mock-locator branch, download, decryption and authorization; it never
reads or writes the revealed_capsules store, and it contains no kit/capsule
id binding check (the mock check at line 366 only logs). -/
def previewCapsule (env : RevealEnv) (store : Store) (capsuleId : String)
    (recoveryKit : RecoveryKit) (userAddress : String) (originalUnlockTime : Nat) :
    RevealResult × Store :=
  if (validateRecoveryKit recoveryKit).isValid = false then
    (⟨false, none,
      some ((validateRecoveryKit recoveryKit).error.getD "Invalid recovery kit")⟩, store)
  else
    match env.directory capsuleId with
    | none => (⟨false, none, some "Unable to locate capsule data on IPFS"⟩, store)
    | some ipfsCid =>
      let withContent (decryptedContent : DecryptedCapsuleContent) : RevealResult × Store :=
        if isUserAuthorized decryptedContent userAddress = false then
          (⟨false, none, some "You are not authorized to access this capsule"⟩, store)
        else
          let previewData : RevealedCapsule :=
            { id := capsuleId
              originalData := decryptedContent
              revealMetadata :=
                { revealedAt := env.now
                  revealedBy := userAddress
                  isEarlyReveal := decide (env.now < originalUnlockTime * 1000)
                  originalUnlockTime := originalUnlockTime
                  revealMessage := none
                  socialInteractions := { likes := 0, comments := [] } } }
          (⟨true, some previewData, none⟩, store)
      if strStartsWith ipfsCid "mock_" then
        withContent (mockDecryptedContent env.now userAddress)
      else
        match env.download ipfsCid with
        | Except.error e => (⟨false, none, some e⟩, store)
        | Except.ok encryptedContent =>
          match env.decryptContent encryptedContent recoveryKit.key recoveryKit.iv with
          | Except.error e => (⟨false, none, some e⟩, store)
          | Except.ok decryptedContent => withContent decryptedContent

/-- A record with one comment pushed onto the end of its comment list
(reveal.ts line 285). -/
def withComment (r : RevealedCapsule) (comment : Comment) : RevealedCapsule :=
  { r with revealMetadata :=
    { r.revealMetadata with socialInteractions :=
      { r.revealMetadata.socialInteractions with comments :=
        r.revealMetadata.socialInteractions.comments ++ [comment] } } }

/-- Append a comment to the first ledger record whose id matches, mirroring
the findIndex-then-mutate update of addComment; none when no record
matches. -/
def addCommentToList (comment : Comment) (capsuleId : String) :
    List RevealedCapsule → Option (List RevealedCapsule)
  | [] => none
  | c :: cs =>
    if c.id = capsuleId then some (withComment c comment :: cs)
    else (addCommentToList comment capsuleId cs).map (fun l => c :: l)

/-- addComment (reveal.ts lines 271-293): locate the record by id (false
and no write when absent), push a comment whose id and timestamp come from
Date.now (the now argument), and persist the updated list. -/
def addComment (store : Store) (now : Nat) (capsuleId author content : String) :
    Bool × Store :=
  match addCommentToList ⟨toString now, author, content, now⟩ capsuleId store.revealed with
  | none => (false, store)
  | some l => (true, ⟨l⟩)

/-! ## ContentStore download (ipfs.ts lines 144-287)

One network attempt against one gateway either yields an HTTP response
(ok with the body, or an error status) or throws (network failure, CORS
block, or the 20-second timeout race); each gateway's behaviour is a
function from the retry index to such an outcome. -/

/-- Outcome of a single fetch attempt against one gateway. -/
inductive AttemptOutcome where
  | ok (content : String)
  | httpErr (status : Nat) (statusText : String)
  | exc (isTypeError : Bool) (msg : String)
deriving Repr, DecidableEq

/-- The error message recorded for a non-ok HTTP response
(ipfs.ts line 239). -/
def httpMsg (status : Nat) (statusText : String) : String :=
  "HTTP " ++ toString status ++ ": " ++ statusText

/-- One iteration of the retry loop body: success content, or the recorded
error message together with whether the per-gateway loop breaks (a 404
response at line 243, or a CORS TypeError at line 253). -/
def stepOutcome (o : AttemptOutcome) : Sum String (String × Bool) :=
  match o with
  | .ok c => .inl c
  | .httpErr s t => .inr (httpMsg s t, s == 404)
  | .exc te msg => .inr (msg, te && strContains msg "CORS")

/-- The per-gateway loop (ipfs.ts lines 205-258): up to two attempts,
stopping early on success, on a definitive 404, or on a CORS block;
returns the content or the last error message of this gateway. -/
def runMirror (m : Nat → AttemptOutcome) : Sum String String :=
  match stepOutcome (m 0) with
  | .inl c => .inl c
  | .inr (e0, stop) =>
    if stop then .inr e0
    else
      match stepOutcome (m 1) with
      | .inl c => .inl c
      | .inr (e1, _) => .inr e1

/-- getHelpfulDownloadError (ipfs.ts lines 267-287): classify the last
observed error message into an actionable message. -/
def getHelpfulDownloadError (cid : String) (lastError : Option String) : String :=
  let errorMessage := lastError.getD "Unknown error"
  if strContains errorMessage "CORS" then
    "Download failed due to CORS restrictions. CID: " ++ cid ++
      ". Try using a different browser or wait a few minutes for IPFS propagation."
  else if strContains errorMessage "404" || strContains errorMessage "Not Found" then
    "Content not found on IPFS network. CID: " ++ cid ++
      ". The content may not be fully propagated yet. Please wait a few minutes and try again."
  else if strContains errorMessage "timeout" then
    "Download timed out. CID: " ++ cid ++ ". IPFS gateways may be slow. Please try again later."
  else if strContains errorMessage "Load failed" || strContains errorMessage "Failed to fetch" then
    "Network error while downloading. CID: " ++ cid ++
      ". This may be due to CORS restrictions or slow IPFS propagation. Wait 2-3 minutes and try again."
  else
    "Failed to download content from IPFS. CID: " ++ cid ++ ". Error: " ++ errorMessage ++
      ". Please try again in a few minutes."

/-- The outer gateway loop (ipfs.ts lines 201-263): try each gateway in
order, short-circuiting on the first success and otherwise threading the
last observed error into the aggregated failure. -/
def downloadLoop (cid : String) (lastError : Option String) :
    List (Nat → AttemptOutcome) → Except String String
  | [] => .error (getHelpfulDownloadError cid lastError)
  | m :: ms =>
    match runMirror m with
    | .inl c => .ok c
    | .inr e => downloadLoop cid (some e) ms

/-- download (ipfs.ts lines 145-264): reject an empty CID, serve local_
locators from the local fallback store without touching the network, and
otherwise run the gateway loop over the ordered mirror list. -/
def download (cid : String) (localStore : String → Option String)
    (mirrors : List (Nat → AttemptOutcome)) : Except String String :=
  if isBlankCid cid then .error "Invalid CID: CID cannot be empty"
  else if strStartsWith cid "local_" then
    match localStore ("ipfs_" ++ cid) with
    | none => .error ("Content not found in localStorage for CID: " ++ cid)
    | some stored => .ok stored
  else
    downloadLoop cid none mirrors

/-! ## Helper lemmas about the reveal ledger -/

/-- Number of ledger records carrying a given capsule id. -/
def countId (revealed : List RevealedCapsule) (i : String) : Nat :=
  (revealed.filter (fun c => c.id = i)).length

theorem filter_ne_filter_eq (l : List RevealedCapsule) (x : String) :
    (l.filter (fun c => c.id ≠ x)).filter (fun c => c.id = x) = [] := by
  induction l with
  | nil => rfl
  | cons a t ih => by_cases h : a.id = x <;> simp [List.filter_cons, h, ih]

theorem filter_ne_filter_eq_of_ne (l : List RevealedCapsule) (x i : String) (hxi : x ≠ i) :
    (l.filter (fun c => c.id ≠ x)).filter (fun c => c.id = i) =
      l.filter (fun c => c.id = i) := by
  induction l with
  | nil => rfl
  | cons a t ih =>
    by_cases h : a.id = x
    · have hai : ¬a.id = i := by rw [h]; exact hxi
      simp only [List.filter_cons]
      rw [if_neg (by simp [h]), if_neg (by simp [hai])]
      exact ih
    · by_cases h2 : a.id = i
      · simp only [List.filter_cons]
        rw [if_pos (by simp [h]), List.filter_cons, if_pos (by simp [h2]),
          if_pos (by simp [h2]), ih]
      · simp only [List.filter_cons]
        rw [if_pos (by simp [h]), List.filter_cons, if_neg (by simp [h2]),
          if_neg (by simp [h2])]
        exact ih

theorem countId_storeRevealedCapsule (revealed : List RevealedCapsule)
    (cap : RevealedCapsule) (i : String) (h : countId revealed i ≤ 1) :
    countId (storeRevealedCapsule revealed cap) i ≤ 1 := by
  unfold countId storeRevealedCapsule at *
  rw [List.filter_append, List.length_append]
  by_cases hid : cap.id = i
  · subst hid
    rw [filter_ne_filter_eq]
    simp [List.filter_cons]
  · rw [filter_ne_filter_eq_of_ne revealed cap.id i hid]
    have h2 : (List.filter (fun c => decide (c.id = i)) [cap]).length = 0 := by
      simp [List.filter_cons, hid]
    omega

theorem bind_ok {kit : RecoveryKit} {capsuleId : String}
    (hbind : kit.capsuleId = capsuleId ∨ isAllDigits capsuleId = true) :
    ¬(kit.capsuleId ≠ capsuleId ∧ isAllDigits capsuleId = false) := by
  rintro ⟨h1, h2⟩
  rcases hbind with h | h
  · exact h1 h
  · rw [h] at h2; cases h2

/-! ## Concrete fixtures for witnesses and counterexamples -/

/-- A structurally valid recovery kit bound to capsule c1: the key decodes
to 32 zero bytes, the IV to 12 zero bytes. -/
def kitOk : RecoveryKit :=
  { key := "AAAAAAAAAAAAAAAAAAAAAAAAAAAAAAAAAAAAAAAAAAA="
    iv := "AAAAAAAAAAAAAAAA"
    capsuleId := "c1" }

/-- The same structurally valid kit, bound to capsule B instead. -/
def kitB : RecoveryKit := { kitOk with capsuleId := "B" }

/-- A revealed-capsule record for capsule c1, created by user u. -/
def r0 : RevealedCapsule :=
  { id := "c1"
    originalData := { title := "t", description := "d", files := [], createdAt := 0, creator := "u" }
    revealMetadata :=
      { revealedAt := 0, revealedBy := "u", isEarlyReveal := false, originalUnlockTime := 0
        revealMessage := none, socialInteractions := { likes := 0, comments := [] } } }

/-- An environment whose directory knows nothing and whose network fails. -/
def env0 : RevealEnv :=
  { directory := fun _ => none
    download := fun _ => .error "e"
    decryptContent := fun _ _ _ => .error "e"
    now := 0 }

/-- C1: a capsule id already present in the ledger makes a second reveal
call fail with the duplicate-reveal error and leave the ledger (hence the
stored record) unchanged; and every reveal call preserves the invariant
that a capsule id has at most one ledger record. -/
theorem revealCapsule_duplicate_reject_and_unique :
    (∀ env store capsuleId kit userAddress t msg r,
      (validateRecoveryKit kit).isValid = true →
      (kit.capsuleId = capsuleId ∨ isAllDigits capsuleId = true) →
      getRevealedCapsule store.revealed capsuleId = some r →
      revealCapsule env store capsuleId kit userAddress t msg =
        (⟨false, none, some "This capsule has already been revealed"⟩, store)) ∧
    (∀ env store capsuleId kit userAddress t msg i,
      countId store.revealed i ≤ 1 →
      countId (revealCapsule env store capsuleId kit userAddress t msg).2.revealed i ≤ 1) := by
  constructor
  · intro env store capsuleId kit u t msg r hval hbind hdup
    unfold revealCapsule
    rw [hval]
    rw [if_neg (by simp)]
    rw [if_neg (bind_ok hbind)]
    rw [hdup]
  · intro env store capsuleId kit u t msg i h
    unfold revealCapsule
    split
    · exact h
    split
    · exact h
    split
    · exact h
    split
    · exact h
    split
    · exact countId_storeRevealedCapsule _ _ _ h
    split
    · exact h
    split
    · exact h
    split
    · exact h
    · exact countId_storeRevealedCapsule _ _ _ h

/-- Witness for C1 at a concrete ledger already holding capsule c1. -/
theorem revealCapsule_duplicate_reject_witness :
    revealCapsule env0 ⟨[r0]⟩ "c1" kitOk "u" 0 none =
      (⟨false, none, some "This capsule has already been revealed"⟩, ⟨[r0]⟩) ∧
    countId (revealCapsule env0 ⟨[r0]⟩ "c1" kitOk "u" 0 none).2.revealed "c1" ≤ 1 :=
  ⟨revealCapsule_duplicate_reject_and_unique.1 env0 ⟨[r0]⟩ "c1" kitOk "u" 0 none r0
      (by decide) (Or.inl rfl) (by decide),
    revealCapsule_duplicate_reject_and_unique.2 env0 ⟨[r0]⟩ "c1" kitOk "u" 0 none "c1"
      (by decide)⟩

/-- C8: previewCapsule leaves the persisted reveal ledger unchanged on
every input, whether it succeeds or fails. -/
theorem previewCapsule_ledger_unchanged (env : RevealEnv) (store : Store)
    (capsuleId : String) (kit : RecoveryKit) (userAddress : String)
    (originalUnlockTime : Nat) :
    (previewCapsule env store capsuleId kit userAddress originalUnlockTime).2 = store := by
  unfold previewCapsule
  dsimp only
  split
  · rfl
  split
  · rfl
  split
  · split <;> rfl
  split
  · rfl
  split
  · rfl
  · split <;> rfl

/-! ## addComment lemmas -/

theorem addCommentToList_none (comment : Comment) (capsuleId : String)
    (l : List RevealedCapsule) (h : ∀ c ∈ l, c.id ≠ capsuleId) :
    addCommentToList comment capsuleId l = none := by
  induction l with
  | nil => rfl
  | cons a t ih =>
    unfold addCommentToList
    rw [if_neg (h a (by simp)), ih (fun c hc => h c (by simp [hc]))]
    rfl

theorem addCommentToList_found (comment : Comment) (capsuleId : String)
    (pre : List RevealedCapsule) (r : RevealedCapsule) (post : List RevealedCapsule)
    (hpre : ∀ c ∈ pre, c.id ≠ capsuleId) (hr : r.id = capsuleId) :
    addCommentToList comment capsuleId (pre ++ r :: post) =
      some (pre ++ withComment r comment :: post) := by
  induction pre with
  | nil =>
    simp only [List.nil_append]
    unfold addCommentToList
    rw [if_pos hr]
  | cons a t ih =>
    simp only [List.cons_append]
    unfold addCommentToList
    rw [if_neg (hpre a (by simp)), ih (fun c hc => hpre c (by simp [hc]))]
    rfl

/-- C9: addComment on a capsule id with no ledger entry returns false and
leaves the ledger unchanged; on an id with a ledger entry it appends
exactly one comment — whose id and timestamp are the current clock — to
the end of the first matching record's comment list, keeps every other
record and all prior comments in place and in order, and returns true. -/
theorem addComment_absent_and_append :
    (∀ store now capsuleId author content,
      (∀ c ∈ store.revealed, c.id ≠ capsuleId) →
      addComment store now capsuleId author content = (false, store)) ∧
    (∀ (store : Store) now capsuleId author content pre r post,
      store.revealed = pre ++ r :: post →
      (∀ c ∈ pre, c.id ≠ capsuleId) →
      r.id = capsuleId →
      addComment store now capsuleId author content =
        (true, ⟨pre ++ withComment r ⟨toString now, author, content, now⟩ :: post⟩)) := by
  constructor
  · intro store now capsuleId a ct h
    unfold addComment
    rw [addCommentToList_none _ _ _ h]
  · intro store now capsuleId a ct pre r post hs hpre hr
    unfold addComment
    rw [hs, addCommentToList_found _ _ _ _ _ hpre hr]

/-- Witness for C9: a present id appends one comment, an absent id is a
no-op returning false. -/
theorem addComment_absent_and_append_witness :
    addComment ⟨[r0]⟩ 5 "c1" "alice" "hi" =
      (true, ⟨[withComment r0 ⟨toString 5, "alice", "hi", 5⟩]⟩) ∧
    addComment ⟨[r0]⟩ 5 "zz" "alice" "hi" = (false, ⟨[r0]⟩) :=
  ⟨addComment_absent_and_append.2 ⟨[r0]⟩ 5 "c1" "alice" "hi" [] r0 [] rfl
      (by simp) rfl,
    addComment_absent_and_append.1 ⟨[r0]⟩ 5 "zz" "alice" "hi" (by decide)⟩

/-- C6: on the real (non-mock) path, given a fetched and decrypted
payload, the reveal succeeds exactly when the payload's embedded creator
address equals the caller address after lowercasing; on a mismatch the
call returns the unauthorized failure and leaves the ledger unchanged. -/
theorem revealCapsule_authorization_iff :
    ∀ env store capsuleId kit userAddress t msg cid content payload,
      (validateRecoveryKit kit).isValid = true →
      (kit.capsuleId = capsuleId ∨ isAllDigits capsuleId = true) →
      getRevealedCapsule store.revealed capsuleId = none →
      env.directory capsuleId = some cid →
      strStartsWith cid "mock_" = false →
      env.download cid = Except.ok content →
      env.decryptContent content kit.key kit.iv = Except.ok payload →
      (((revealCapsule env store capsuleId kit userAddress t msg).1.success = true ↔
          strToLower payload.creator = strToLower userAddress) ∧
        (strToLower payload.creator ≠ strToLower userAddress →
          revealCapsule env store capsuleId kit userAddress t msg =
            (⟨false, none, some "You are not authorized to reveal this capsule"⟩, store))) := by
  intro env store capsuleId kit u t msg cid content payload hval hbind hnodup hdir hmock hdl hdec
  unfold revealCapsule
  rw [hval]
  rw [if_neg (by simp), if_neg (bind_ok hbind)]
  split
  · next heq => simp [hnodup] at heq
  split
  · next heq => simp [hdir] at heq
  · next ipfsCid heq =>
    rw [hdir] at heq
    injection heq with heq
    subst heq
    split
    · next h2 => rw [hmock] at h2; cases h2
    split
    · next heq2 => simp [hdl] at heq2
    · next ec heq2 =>
      rw [hdl] at heq2
      injection heq2 with heq2
      subst heq2
      split
      · next heq3 => simp [hdec] at heq3
      · next pl heq3 =>
        rw [hdec] at heq3
        injection heq3 with heq3
        subst heq3
        by_cases hauth : strToLower payload.creator = strToLower u
        · rw [if_neg (by simp [isUserAuthorized, hauth])]
          constructor
          · simp [hauth]
          · intro hne; exact absurd hauth hne
        · rw [if_pos (by simp [isUserAuthorized]; exact hauth)]
          constructor
          · simp [hauth]
          · intro _; rfl

/-- The authorized creator payload used by concrete reveal scenarios. -/
def payloadU : DecryptedCapsuleContent :=
  { title := "T", description := "D", files := [], createdAt := 0, creator := "0xAbC" }

/-- An environment mapping capsule c1 to a real locator whose content
decrypts to payloadU. -/
def env6 : RevealEnv :=
  { directory := fun i => if i = "c1" then some "QmReal" else none
    download := fun c => if c = "QmReal" then Except.ok "CT" else Except.error "x"
    decryptContent := fun content _ _ =>
      if content = "CT" then Except.ok payloadU else Except.error "bad"
    now := 0 }

/-- Witness for C6 at a concrete environment where the decrypted creator
matches the caller up to case. -/
theorem revealCapsule_authorization_iff_witness :
    ((revealCapsule env6 ⟨[]⟩ "c1" kitOk "0xabc" 0 none).1.success = true ↔
      strToLower payloadU.creator = strToLower "0xabc") ∧
    (strToLower payloadU.creator ≠ strToLower "0xabc" →
      revealCapsule env6 ⟨[]⟩ "c1" kitOk "0xabc" 0 none =
        (⟨false, none, some "You are not authorized to reveal this capsule"⟩, ⟨[]⟩)) :=
  revealCapsule_authorization_iff env6 ⟨[]⟩ "c1" kitOk "0xabc" 0 none "QmReal" "CT" payloadU
    (by decide) (Or.inl rfl) rfl rfl (by decide) rfl rfl

/-! ## The mock-locator branch of revealCapsule -/

/-- Shared reduction lemma: once validation, binding and the duplicate
check pass and the directory resolves a mock_-prefixed locator,
revealCapsule returns the synthetic record and writes exactly it. -/
theorem reveal_mock_eq (env : RevealEnv) (store : Store) (capsuleId : String)
    (kit : RecoveryKit) (u : String) (t : Nat) (msg : Option String) (cid : String)
    (hval : (validateRecoveryKit kit).isValid = true)
    (hbind : kit.capsuleId = capsuleId ∨ isAllDigits capsuleId = true)
    (hnodup : getRevealedCapsule store.revealed capsuleId = none)
    (hdir : env.directory capsuleId = some cid)
    (hmock : strStartsWith cid "mock_" = true) :
    revealCapsule env store capsuleId kit u t msg =
      (⟨true, some (mockRevealedCapsule env.now u t msg capsuleId), none⟩,
        ⟨storeRevealedCapsule store.revealed
          (mockRevealedCapsule env.now u t msg capsuleId)⟩) := by
  unfold revealCapsule
  rw [hval, if_neg (by simp), if_neg (bind_ok hbind)]
  split
  · next heq => simp [hnodup] at heq
  split
  · next heq => simp [hdir] at heq
  · next ipfsCid heq =>
    rw [hdir] at heq
    injection heq with heq
    subst heq
    rw [if_pos hmock]

/-- A directory mapping capsules A and 123 to a mock locator, over a dead
network. -/
def envMock : RevealEnv :=
  { directory := fun i => if i = "A" ∨ i = "123" then some "mock_1" else none
    download := fun _ => Except.error "x"
    decryptContent := fun _ _ _ => Except.error "x"
    now := 0 }

/-- Counterexample for C2: reveal of the all-digit capsule id 123 with a
structurally valid kit bound to capsule B succeeds, although the kit does
not match and no directory flag marks the capsule synthetic (the model has
no such flag, as the source has none): the bypass is decided by the digit
shape of the capsule id. -/
theorem revealCapsule_binding_shape_cex :
    kitB.capsuleId ≠ "123" ∧
    (revealCapsule envMock ⟨[]⟩ "123" kitB "u" 0 none).1.success = true := by
  exact ⟨by decide, by decide⟩

/-- C2 (amended): a reveal call whose kit capsuleId differs from the
target capsule id is rejected with the binding failure, without ledger
mutation, unless the capsule id consists only of digits; for an all-digit
capsule id the mismatch is bypassed and the call can proceed to success.
The bypass is decided by the shape of the capsule id, not by a directory
flag. -/
theorem revealCapsule_binding_digit_policy :
    (∀ env store capsuleId kit u t msg,
      (validateRecoveryKit kit).isValid = true →
      kit.capsuleId ≠ capsuleId →
      isAllDigits capsuleId = false →
      revealCapsule env store capsuleId kit u t msg =
        (⟨false, none, some "Recovery kit does not match the specified capsule"⟩, store)) ∧
    (∀ env store capsuleId kit u t msg cid,
      (validateRecoveryKit kit).isValid = true →
      isAllDigits capsuleId = true →
      getRevealedCapsule store.revealed capsuleId = none →
      env.directory capsuleId = some cid →
      strStartsWith cid "mock_" = true →
      (revealCapsule env store capsuleId kit u t msg).1.success = true) := by
  constructor
  · intro env store capsuleId kit u t msg hval hne hdig
    unfold revealCapsule
    rw [hval, if_neg (by simp), if_pos ⟨hne, hdig⟩]
  · intro env store capsuleId kit u t msg cid hval hdig hnodup hdir hmock
    rw [reveal_mock_eq env store capsuleId kit u t msg cid hval (Or.inr hdig) hnodup hdir hmock]

/-- Witness for C2 (amended): the non-digit capsule id A rejects the
mismatched kit; the all-digit capsule id 123 accepts it. -/
theorem revealCapsule_binding_digit_policy_witness :
    revealCapsule envMock ⟨[]⟩ "A" kitB "u" 0 none =
      (⟨false, none, some "Recovery kit does not match the specified capsule"⟩, ⟨[]⟩) ∧
    (revealCapsule envMock ⟨[]⟩ "123" kitB "u" 0 none).1.success = true :=
  ⟨revealCapsule_binding_digit_policy.1 envMock ⟨[]⟩ "A" kitB "u" 0 none
      (by decide) (by decide) (by decide),
    revealCapsule_binding_digit_policy.2 envMock ⟨[]⟩ "123" kitB "u" 0 none "mock_1"
      (by decide) (by decide) rfl rfl (by decide)⟩

/-- Counterexample for C10: with a structurally valid kit and no duplicate
record, a capsule id whose directory entry is a mock locator still fails
when the kit binding step rejects (kit bound to B, target A, A not
all-digit), so validation and no-duplicate alone do not suffice for the
mock bypass. -/
theorem revealCapsule_mock_locator_cex :
    (validateRecoveryKit kitB).isValid = true ∧
    getRevealedCapsule ([] : List RevealedCapsule) "A" = none ∧
    envMock.directory "A" = some "mock_1" ∧
    strStartsWith "mock_1" "mock_" = true ∧
    (revealCapsule envMock ⟨[]⟩ "A" kitB "u" 0 none).1.success = false := by
  exact ⟨by decide, rfl, rfl, by decide, by decide⟩

/-- C10 (amended): whenever the directory resolves the capsule id to a
locator prefixed mock_, and the kit passed structural validation, the
binding step passed (kit bound to the id, or an all-digit id), and no
duplicate ledger record exists, revealCapsule skips fetch, decryption and
the creator-equality check entirely: the result is success carrying the
synthetic fixed payload whose creator is the caller address, and exactly
that record is written to the ledger (the conclusion is independent of the
download and decryption collaborators). -/
theorem revealCapsule_mock_locator_bypass :
    ∀ env store capsuleId kit u t msg cid,
      (validateRecoveryKit kit).isValid = true →
      (kit.capsuleId = capsuleId ∨ isAllDigits capsuleId = true) →
      getRevealedCapsule store.revealed capsuleId = none →
      env.directory capsuleId = some cid →
      strStartsWith cid "mock_" = true →
      revealCapsule env store capsuleId kit u t msg =
        (⟨true, some (mockRevealedCapsule env.now u t msg capsuleId), none⟩,
          ⟨storeRevealedCapsule store.revealed
            (mockRevealedCapsule env.now u t msg capsuleId)⟩) :=
  fun env store capsuleId kit u t msg cid hval hbind hnodup hdir hmock =>
    reveal_mock_eq env store capsuleId kit u t msg cid hval hbind hnodup hdir hmock

/-- The valid kit bound to capsule A. -/
def kitA : RecoveryKit := { kitOk with capsuleId := "A" }

/-- Witness for C10 (amended) at a concrete mock-mapped capsule. -/
theorem revealCapsule_mock_locator_bypass_witness :
    revealCapsule envMock ⟨[]⟩ "A" kitA "u" 7 (some "m") =
      (⟨true, some (mockRevealedCapsule 0 "u" 7 (some "m") "A"), none⟩,
        ⟨storeRevealedCapsule [] (mockRevealedCapsule 0 "u" 7 (some "m") "A")⟩) :=
  revealCapsule_mock_locator_bypass envMock ⟨[]⟩ "A" kitA "u" 7 (some "m") "mock_1"
    (by decide) (Or.inl rfl) rfl rfl (by decide)

/-! ## previewCapsule and the binding check -/

/-- An environment mapping capsule A to a real locator whose content
decrypts to a payload created by u. -/
def env3 : RevealEnv :=
  { directory := fun i => if i = "A" then some "QmZ" else none
    download := fun c => if c = "QmZ" then Except.ok "CT" else Except.error "x"
    decryptContent := fun content _ _ =>
      if content = "CT" then
        Except.ok { title := "T", description := "D", files := [], createdAt := 0, creator := "u" }
      else Except.error "bad"
    now := 0 }

/-- Counterexample for C3: previewCapsule with a structurally valid kit
whose capsuleId B differs from the target A (A not flagged synthetic, not
mock, not all-digit) still decrypts and returns the content with success,
instead of failing: the binding step of the reveal pipeline is not
enforced by previewCapsule. -/
theorem previewCapsule_binding_cex :
    kitB.capsuleId ≠ "A" ∧ isAllDigits "A" = false ∧
    (previewCapsule env3 ⟨[]⟩ "A" kitB "u" 0).1.success = true ∧
    (previewCapsule env3 ⟨[]⟩ "A" kitB "u" 0).1.data.isSome = true := by
  exact ⟨by decide, by decide, by decide, by decide⟩

/-- Structural validation ignores which capsule the kit is bound to, as
long as the binding field is present. -/
theorem validateRecoveryKit_capsuleId_congr (kit : RecoveryKit) (c : String)
    (h1 : kit.capsuleId ≠ "") (h2 : c ≠ "") :
    validateRecoveryKit { kit with capsuleId := c } = validateRecoveryKit kit := by
  unfold validateRecoveryKit
  dsimp only
  by_cases hk : kit.key = ""
  · rw [if_pos (Or.inl hk), if_pos (Or.inl hk)]
  · by_cases hi : kit.iv = ""
    · rw [if_pos (Or.inr (Or.inl hi)), if_pos (Or.inr (Or.inl hi))]
    · rw [if_neg (by push_neg; exact ⟨hk, hi, h2⟩), if_neg (by push_neg; exact ⟨hk, hi, h1⟩)]

/-- C3 (amended): previewCapsule enforces structural kit validation
(step 1) but not the kit/capsule-id binding (step 2): apart from the
presence requirement on the binding field, the preview result does not
depend on the kit's capsuleId at all, so a kit bound to a different
capsule is not rejected and content can be decrypted and returned. -/
theorem previewCapsule_no_binding_check :
    (∀ env store capsuleId kit u t,
      (validateRecoveryKit kit).isValid = false →
      (previewCapsule env store capsuleId kit u t).1.success = false) ∧
    (∀ env store capsuleId kit u t c,
      kit.capsuleId ≠ "" → c ≠ "" →
      previewCapsule env store capsuleId { kit with capsuleId := c } u t =
        previewCapsule env store capsuleId kit u t) := by
  constructor
  · intro env store capsuleId kit u t hval
    unfold previewCapsule
    rw [if_pos hval]
  · intro env store capsuleId kit u t c h1 h2
    unfold previewCapsule
    rw [validateRecoveryKit_capsuleId_congr kit c h1 h2]

/-- Witness for C3 (amended): an invalid kit fails the preview; rebinding
a kit to a different capsule id leaves the preview result unchanged. -/
theorem previewCapsule_no_binding_check_witness :
    (previewCapsule env3 ⟨[]⟩ "A" ⟨"", "", ""⟩ "u" 0).1.success = false ∧
    previewCapsule env3 ⟨[]⟩ "A" { kitB with capsuleId := "X" } "u" 0 =
      previewCapsule env3 ⟨[]⟩ "A" kitB "u" 0 :=
  ⟨previewCapsule_no_binding_check.1 env3 ⟨[]⟩ "A" ⟨"", "", ""⟩ "u" 0 (by decide),
    previewCapsule_no_binding_check.2 env3 ⟨[]⟩ "A" kitB "u" 0 "X" (by decide) (by decide)⟩

/-! ## Download exhaustion and short-circuit -/

theorem runMirror_404 (m : Nat → AttemptOutcome)
    (h : m 0 = AttemptOutcome.httpErr 404 "Not Found") :
    runMirror m = Sum.inr "HTTP 404: Not Found" := by
  unfold runMirror
  rw [h]
  rfl

theorem runMirror_ok (m : Nat → AttemptOutcome) (c : String)
    (h : m 0 = AttemptOutcome.ok c) : runMirror m = Sum.inl c := by
  unfold runMirror
  rw [h]
  rfl

/-- The aggregated not-found message for a CID. -/
def notFoundMsg (cid : String) : String :=
  "Content not found on IPFS network. CID: " ++ cid ++
    ". The content may not be fully propagated yet. Please wait a few minutes and try again."

theorem getHelpfulDownloadError_404 (cid : String) :
    getHelpfulDownloadError cid (some "HTTP 404: Not Found") = notFoundMsg cid := by
  unfold getHelpfulDownloadError notFoundMsg
  dsimp only [Option.getD]
  rw [if_neg (by decide), if_pos (by decide)]

theorem downloadLoop_all404 (cid : String) (ms : List (Nat → AttemptOutcome))
    (h : ∀ m ∈ ms, m 0 = AttemptOutcome.httpErr 404 "Not Found") :
    downloadLoop cid (some "HTTP 404: Not Found") ms = .error (notFoundMsg cid) := by
  induction ms with
  | nil =>
    unfold downloadLoop
    rw [getHelpfulDownloadError_404]
  | cons m ms ih =>
    unfold downloadLoop
    rw [runMirror_404 m (h m (by simp))]
    exact ih (fun m1 hm1 => h m1 (by simp [hm1]))

theorem downloadLoop_shortcircuit (cid : String) (ms : List (Nat → AttemptOutcome))
    (m : Nat → AttemptOutcome) (rest : List (Nat → AttemptOutcome)) (c : String)
    (hms : ∀ m1 ∈ ms, ∃ e, runMirror m1 = Sum.inr e)
    (hm : m 0 = AttemptOutcome.ok c) :
    ∀ le, downloadLoop cid le (ms ++ m :: rest) = .ok c := by
  induction ms with
  | nil =>
    intro le
    simp only [List.nil_append]
    unfold downloadLoop
    rw [runMirror_ok m c hm]
  | cons m0 ms ih =>
    intro le
    simp only [List.cons_append]
    unfold downloadLoop
    obtain ⟨e, he⟩ := hms m0 (by simp)
    rw [he]
    exact ih (fun m1 hm1 => hms m1 (by simp [hm1])) (some e)

/-- C7: a remote download that exhausts every mirror with each returning
not-found surfaces the aggregated fetch error classified as not-found;
and as soon as a mirror returns success on its first attempt, the content
is returned at once — independent of every later mirror and of any later
attempt against the succeeding mirror. -/
theorem download_notfound_and_shortcircuit :
    (∀ cid ls mirrors,
      isBlankCid cid = false →
      strStartsWith cid "local_" = false →
      mirrors ≠ [] →
      (∀ m ∈ mirrors, m 0 = AttemptOutcome.httpErr 404 "Not Found") →
      download cid ls mirrors = .error (notFoundMsg cid)) ∧
    (∀ cid ls ms m rest c,
      isBlankCid cid = false →
      strStartsWith cid "local_" = false →
      (∀ m1 ∈ ms, ∃ e, runMirror m1 = Sum.inr e) →
      m 0 = AttemptOutcome.ok c →
      download cid ls (ms ++ m :: rest) = .ok c) := by
  constructor
  · intro cid ls mirrors hblank hlocal hne h
    unfold download
    rw [if_neg (by simp [hblank]), if_neg (by simp [hlocal])]
    cases mirrors with
    | nil => exact absurd rfl hne
    | cons m ms =>
      unfold downloadLoop
      rw [runMirror_404 m (h m (by simp))]
      exact downloadLoop_all404 cid ms (fun m1 hm1 => h m1 (by simp [hm1]))
  · intro cid ls ms m rest c hblank hlocal hms hm
    unfold download
    rw [if_neg (by simp [hblank]), if_neg (by simp [hlocal])]
    exact downloadLoop_shortcircuit cid ms m rest c hms hm none

/-- A mirror that always answers 404 Not Found. -/
def mir404 : Nat → AttemptOutcome := fun _ => .httpErr 404 "Not Found"

/-- A mirror that answers successfully. -/
def mirOk : Nat → AttemptOutcome := fun _ => .ok "CONTENT"

/-- A mirror that always throws a network error. -/
def mirBoom : Nat → AttemptOutcome := fun _ => .exc false "Load failed"

/-- Witness for C7: two all-404 mirrors aggregate to the not-found error;
with a succeeding second mirror the content is returned and the third
mirror is irrelevant. -/
theorem download_notfound_and_shortcircuit_witness :
    download "QmA" (fun _ => none) [mir404, mir404] = .error (notFoundMsg "QmA") ∧
    download "QmA" (fun _ => none) [mir404, mirOk, mirBoom] = .ok "CONTENT" :=
  ⟨download_notfound_and_shortcircuit.1 "QmA" (fun _ => none) [mir404, mir404]
      (by decide) (by decide) (by simp)
      (by intro m hm
          simp only [List.mem_cons, List.mem_singleton] at hm
          rcases hm with h | h | h <;> first | (subst h; rfl) | cases h),
    download_notfound_and_shortcircuit.2 "QmA" (fun _ => none) [mir404] mirOk [mirBoom]
      "CONTENT" (by decide) (by decide)
      (by intro m hm
          simp only [List.mem_singleton] at hm
          subst hm
          exact ⟨"HTTP 404: Not Found", by rfl⟩)
      rfl⟩

end TimeCapsule
